import Mathlib

/-!
Shallow embedding of the one-player Pong game (`w05Assignment.py`).

All positions, velocities and scores in the program are integer-valued:
the ball starts at integer coordinates with integer random velocities,
`advance` adds integers, bounces negate, the paddle starts at
`SCREEN_HEIGHT / 2 = 150` and steps by `MOVE_AMOUNT = 4`, and every
constant the comparisons use (`PADDLE_HEIGHT / 2 = 25`,
`SCREEN_HEIGHT - PADDLE_HEIGHT / 2 = 275`, the hit tolerances 15 and 35)
is an exact integer, so Python's float arithmetic is exact here and the
embedding uses `ℤ` throughout.

Randomness (`random.randint`) is modelled, as the spec's design notes
direct, by an injected bounded-integer source: a stream of naturals with
a position, where drawing from `[a, b]` returns `a + v % (b + 1 - a)`,
which is always inside `[a, b]` because every range the program uses is
non-empty.
-/

namespace PongGame

/-- Source: `SCREEN_WIDTH` global constant of the source. -/
def SCREEN_WIDTH : ℤ := 400

/-- Source: `SCREEN_HEIGHT` global constant of the source. -/
def SCREEN_HEIGHT : ℤ := 300

/-- Source: `BALL_RADIUS` global constant of the source. -/
def BALL_RADIUS : ℤ := 10

/-- Source: `PADDLE_WIDTH` global constant of the source. -/
def PADDLE_WIDTH : ℤ := 10

/-- Source: `PADDLE_HEIGHT` global constant of the source. -/
def PADDLE_HEIGHT : ℤ := 50

/-- Source: `MOVE_AMOUNT` global constant of the source. -/
def MOVE_AMOUNT : ℤ := 4

/-- Source: `SCORE_HIT` global constant of the source. -/
def SCORE_HIT : ℤ := 1

/-- Source: `SCORE_MISS` global constant of the source. -/
def SCORE_MISS : ℤ := 5

/-- Injected bounded-integer random source (spec §9: "inject a
pseudo-random source (interface with a single bounded integer method)"):
an infinite stream of raw naturals together with the current position. -/
structure RNG where
  stream : ℕ → ℕ
  pos : ℕ

/-- Model of Python's `random.randint(a, b)` contract for `a ≤ b`: the
result is an integer in the closed interval `[a, b]`; the draw consumes
one raw value of the injected source. -/
def randint (a b : ℤ) (r : RNG) : ℤ × RNG :=
  (a + (r.stream r.pos : ℤ) % (b + 1 - a), ⟨r.stream, r.pos + 1⟩)

/-- Source: `Point` class of the source. -/
structure Point where
  x : ℤ
  y : ℤ
deriving DecidableEq

/-- Source: `Velocity` class of the source. -/
structure Velocity where
  dx : ℤ
  dy : ℤ
deriving DecidableEq

/-- Source: `Ball` class of the source: a center and a velocity. -/
structure Ball where
  center : Point
  velocity : Velocity
deriving DecidableEq

/-- Source: `Ball.__init__`: `center.x = BALL_RADIUS`,
`center.y = randint(BALL_RADIUS, SCREEN_HEIGHT - BALL_RADIUS)`,
`velocity.dx = randint(MOVE_AMOUNT, 2*MOVE_AMOUNT)`,
`velocity.dy = randint(MOVE_AMOUNT-2, MOVE_AMOUNT-1)`. -/
def Ball.init (r : RNG) : Ball × RNG :=
  let (y, r1) := randint BALL_RADIUS (SCREEN_HEIGHT - BALL_RADIUS) r
  let (dx, r2) := randint MOVE_AMOUNT (2 * MOVE_AMOUNT) r1
  let (dy, r3) := randint (MOVE_AMOUNT - 2) (MOVE_AMOUNT - 1) r2
  (⟨⟨BALL_RADIUS, y⟩, ⟨dx, dy⟩⟩, r3)

/-- Source: `Ball.advance`: add the velocity to the center. -/
def Ball.advance (b : Ball) : Ball :=
  ⟨⟨b.center.x + b.velocity.dx, b.center.y + b.velocity.dy⟩, b.velocity⟩

/-- Source: `Ball.bounce_horizontal`: `velocity.dx *= -1`. -/
def Ball.bounce_horizontal (b : Ball) : Ball :=
  ⟨b.center, ⟨-b.velocity.dx, b.velocity.dy⟩⟩

/-- Source: `Ball.bounce_vertical`: `velocity.dy *= -1`. -/
def Ball.bounce_vertical (b : Ball) : Ball :=
  ⟨b.center, ⟨b.velocity.dx, -b.velocity.dy⟩⟩

/-- Source: `Ball.restart`: `center.x = 0`, re-roll `center.y`, `velocity.dx`,
`velocity.dy` with the same distributions as construction. -/
def Ball.restart (_b : Ball) (r : RNG) : Ball × RNG :=
  let (y, r1) := randint BALL_RADIUS (SCREEN_HEIGHT - BALL_RADIUS) r
  let (dx, r2) := randint MOVE_AMOUNT (2 * MOVE_AMOUNT) r1
  let (dy, r3) := randint (MOVE_AMOUNT - 2) (MOVE_AMOUNT - 1) r2
  (⟨⟨0, y⟩, ⟨dx, dy⟩⟩, r3)

/-- Source: `Paddle` class of the source. -/
structure Paddle where
  center : Point
deriving DecidableEq

/-- Source: `Paddle.__init__`: `center.x = SCREEN_WIDTH - PADDLE_WIDTH`,
`center.y = SCREEN_HEIGHT / 2`. -/
def Paddle.init : Paddle :=
  ⟨⟨SCREEN_WIDTH - PADDLE_WIDTH, SCREEN_HEIGHT / 2⟩⟩

/-- Source: `Paddle.move_up`: if `center.y < SCREEN_HEIGHT - PADDLE_HEIGHT / 2`
then `center.y += MOVE_AMOUNT`, else no-op. -/
def Paddle.move_up (p : Paddle) : Paddle :=
  if p.center.y < SCREEN_HEIGHT - PADDLE_HEIGHT / 2 then
    ⟨⟨p.center.x, p.center.y + MOVE_AMOUNT⟩⟩
  else p

/-- Source: `Paddle.move_down`: if `center.y > PADDLE_HEIGHT / 2`
then `center.y -= MOVE_AMOUNT`, else no-op. -/
def Paddle.move_down (p : Paddle) : Paddle :=
  if p.center.y > PADDLE_HEIGHT / 2 then
    ⟨⟨p.center.x, p.center.y - MOVE_AMOUNT⟩⟩
  else p

/-- The simulation state of the `Pong` window class: ball, paddle,
score and the two input-holding flags. -/
structure Pong where
  ball : Ball
  paddle : Paddle
  score : ℤ
  holding_left : Bool
  holding_right : Bool
deriving DecidableEq

/-- Source: `Pong.__init__(width, height)`: fresh ball, fresh paddle, zero
score, both holding flags false.  The `width`/`height` arguments are
passed only to the external windowing base class; the simulation state
is built from the global constants. -/
def Pong.init (_width _height : ℤ) (r : RNG) : Pong × RNG :=
  let (b, r1) := Ball.init r
  ((⟨b, Paddle.init, 0, false, false⟩ : Pong), r1)

/-- Source: `Pong.check_keys`: if `holding_left` then `paddle.move_down()`;
if `holding_right` then `paddle.move_up()` (both may run). -/
def Pong.check_keys (g : Pong) : Pong :=
  let g1 := if g.holding_left then { g with paddle := g.paddle.move_down } else g
  if g1.holding_right then { g1 with paddle := g1.paddle.move_up } else g1

/-- Source: `Pong.check_hit`: if the ball center is within
`PADDLE_WIDTH/2 + BALL_RADIUS` in x and `PADDLE_HEIGHT/2 + BALL_RADIUS`
in y of the paddle center, and `velocity.dx > 0`, then
`bounce_horizontal()` and `score += SCORE_HIT`. -/
def Pong.check_hit (g : Pong) : Pong :=
  let too_close_x := PADDLE_WIDTH / 2 + BALL_RADIUS
  let too_close_y := PADDLE_HEIGHT / 2 + BALL_RADIUS
  if |g.ball.center.x - g.paddle.center.x| < too_close_x ∧
      |g.ball.center.y - g.paddle.center.y| < too_close_y ∧
      g.ball.velocity.dx > 0 then
    { g with ball := g.ball.bounce_horizontal, score := g.score + SCORE_HIT }
  else g

/-- Source: `Pong.check_miss`: if `ball.center.x > SCREEN_WIDTH` then
`score -= SCORE_MISS` and `ball.restart()`. -/
def Pong.check_miss (g : Pong) (r : RNG) : Pong × RNG :=
  if g.ball.center.x > SCREEN_WIDTH then
    let (b, r1) := g.ball.restart r
    ({ g with score := g.score - SCORE_MISS, ball := b }, r1)
  else (g, r)

/-- Source: `Pong.check_bounce`: three sequential guarded bounces — left wall
(`x < BALL_RADIUS` and `dx < 0`), bottom (`y < BALL_RADIUS` and
`dy < 0`), top (`y > SCREEN_HEIGHT - BALL_RADIUS` and `dy > 0`). -/
def Pong.check_bounce (g : Pong) : Pong :=
  let g1 := if g.ball.center.x < BALL_RADIUS ∧ g.ball.velocity.dx < 0 then
      { g with ball := g.ball.bounce_horizontal } else g
  let g2 := if g1.ball.center.y < BALL_RADIUS ∧ g1.ball.velocity.dy < 0 then
      { g1 with ball := g1.ball.bounce_vertical } else g1
  if g2.ball.center.y > SCREEN_HEIGHT - BALL_RADIUS ∧ g2.ball.velocity.dy > 0 then
    { g2 with ball := g2.ball.bounce_vertical } else g2

/-- Source: `Pong.update(delta_time)`: advance the ball, handle held keys, then
`check_miss`, `check_hit`, `check_bounce`, in that order.  `delta_time`
is accepted and never read, exactly as in the source. -/
def Pong.update (_delta_time : ℤ) (g : Pong) (r : RNG) : Pong × RNG :=
  let g1 := { g with ball := g.ball.advance }
  let g2 := g1.check_keys
  let (g3, r3) := g2.check_miss r
  let g4 := g3.check_hit
  (g4.check_bounce, r3)

/-- The per-frame procedure exactly as the spec words it (§4.3), for
the refinement comparison with `Pong.update`: (1) `ball.advance`;
(2) held-input movement, `move_down` for the decrease-y flag then
`move_up` for the increase-y flag, each independently clamped;
(3) the miss check; (4) the hit check; (5) the boundary-bounce check;
nothing else. -/
def Pong.updateSpec (g : Pong) (r : RNG) : Pong × RNG :=
  let g1 := { g with ball := g.ball.advance }
  let g2 := if g1.holding_left then { g1 with paddle := g1.paddle.move_down } else g1
  let g3 := if g2.holding_right then { g2 with paddle := g2.paddle.move_up } else g2
  let (g4, r4) := g3.check_miss r
  let g5 := g4.check_hit
  (g5.check_bounce, r4)

/-- A paddle move drawn from the two player inputs: `up` is the
increase-y input (`move_up`), `down` the decrease-y input (`move_down`). -/
inductive PMove where
  | up : PMove
  | down : PMove

/-- Apply a sequence of paddle moves in order. -/
def applyMoves (ms : List PMove) (p : Paddle) : Paddle :=
  ms.foldl (fun q m => match m with | PMove.up => q.move_up | PMove.down => q.move_down) p

/-- A fixed all-zeros random source for concrete evaluations. -/
def rngZero : RNG := ⟨fun _ => 0, 0⟩

/-- Concrete state of the spec's end-to-end example: ball at (380, 150)
with velocity (5, 0), paddle at its initial position, score 0. -/
def gHit : Pong := ⟨⟨⟨380, 150⟩, ⟨5, 0⟩⟩, Paddle.init, 0, false, false⟩

/-- The same overlap with the ball moving away (`dx = -5`). -/
def gAway : Pong := ⟨⟨⟨380, 150⟩, ⟨-5, 0⟩⟩, Paddle.init, 0, false, false⟩

/-- Ball past the right edge (x = 401) moving rightward. -/
def gMiss : Pong := ⟨⟨⟨401, 150⟩, ⟨4, 2⟩⟩, Paddle.init, 0, false, false⟩

/-- Ball past the right edge (x = 401) moving leftward (`dx = -4`). -/
def gMissBack : Pong := ⟨⟨⟨401, 150⟩, ⟨-4, 0⟩⟩, Paddle.init, 0, false, false⟩

/-- C1: the hit check bounces and scores exactly when the
overlap-and-direction condition holds: under the overlap condition with
`velocity.dx > 0` it negates `velocity.dx` and adds `SCORE_HIT` to the
score, and whenever `velocity.dx ≤ 0` (overlapping or not) it changes
neither the score nor the velocity. -/
theorem check_hit_exact (g : Pong) :
    (|g.ball.center.x - g.paddle.center.x| < PADDLE_WIDTH / 2 + BALL_RADIUS ∧
      |g.ball.center.y - g.paddle.center.y| < PADDLE_HEIGHT / 2 + BALL_RADIUS ∧
      g.ball.velocity.dx > 0 →
      (g.check_hit).ball.velocity.dx = -(g.ball.velocity.dx) ∧
      (g.check_hit).score = g.score + SCORE_HIT) ∧
    (g.ball.velocity.dx ≤ 0 →
      (g.check_hit).score = g.score ∧ (g.check_hit).ball.velocity = g.ball.velocity) := by
  obtain ⟨⟨⟨bx, by0⟩, dx, dy⟩, ⟨⟨px, py⟩⟩, sc, hl, hr⟩ := g
  simp only [Pong.check_hit, Ball.bounce_horizontal]
  constructor
  · intro h
    rw [if_pos h]
    exact ⟨rfl, rfl⟩
  · intro h
    split_ifs with hc
    · exact absurd hc.2.2 (not_lt.2 h)
    · exact ⟨rfl, rfl⟩

/-- C1 witness: at the spec's end-to-end example state (ball at
(380, 150) with velocity (5, 0), paddle at (390, 150)) the hit fires
and flips `dx` to -5 while adding `SCORE_HIT`; at the same overlap with
`dx = -5` nothing changes. -/
theorem check_hit_exact_witness :
    ((gHit.check_hit).ball.velocity.dx = -(gHit.ball.velocity.dx) ∧
      (gHit.check_hit).score = gHit.score + SCORE_HIT) ∧
    ((gAway.check_hit).score = gAway.score ∧
      (gAway.check_hit).ball.velocity = gAway.ball.velocity) :=
  ⟨(check_hit_exact gHit).1 (by decide), (check_hit_exact gAway).2 (by decide)⟩

/-- C3: one `update` call is exactly the sequential composition, in the
fixed order, of advance, held-input paddle movement (down flag first,
then up flag, each independently clamped), the miss check, the hit
check, and the boundary-bounce check — with no other mutation. -/
theorem update_eq_spec_composition (t : ℤ) (g : Pong) (r : RNG) :
    Pong.update t g r = Pong.updateSpec g r := rfl

theorem check_bounce_closed_form (bx by0 dx dy : ℤ) (pad : Paddle) (sc : ℤ)
    (hl hr : Bool) :
    Pong.check_bounce ⟨⟨⟨bx, by0⟩, ⟨dx, dy⟩⟩, pad, sc, hl, hr⟩ =
      ⟨⟨⟨bx, by0⟩,
        ⟨if bx < BALL_RADIUS ∧ dx < 0 then -dx else dx,
          if by0 < BALL_RADIUS ∧ dy < 0 then -dy
          else if by0 > SCREEN_HEIGHT - BALL_RADIUS ∧ dy > 0 then -dy else dy⟩⟩,
        pad, sc, hl, hr⟩ := by
  simp only [Pong.check_bounce, Ball.bounce_horizontal, Ball.bounce_vertical,
    BALL_RADIUS, SCREEN_HEIGHT]
  split_ifs <;> simp_all <;> omega

/-- C6: the boundary-bounce check is idempotent: running it twice with
no advance in between equals running it once. -/
theorem check_bounce_idempotent (g : Pong) :
    g.check_bounce.check_bounce = g.check_bounce := by
  obtain ⟨⟨⟨bx, by0⟩, dx, dy⟩, pad, sc, hl, hr⟩ := g
  rw [check_bounce_closed_form, check_bounce_closed_form]
  simp only [Pong.mk.injEq, Ball.mk.injEq, Point.mk.injEq, Velocity.mk.injEq,
    BALL_RADIUS, SCREEN_HEIGHT, and_true, true_and]
  constructor <;> split_ifs <;> omega

/-- C7: for every injected random source, `Ball.init` produces
`center.x = BALL_RADIUS`, `center.y ∈ [BALL_RADIUS, SCREEN_HEIGHT -
BALL_RADIUS]`, `velocity.dx ∈ [MOVE_AMOUNT, 2*MOVE_AMOUNT]` (hence
strictly positive) and `velocity.dy ∈ [MOVE_AMOUNT-2, MOVE_AMOUNT-1]`. -/
theorem ball_init_ranges (r : RNG) :
    (Ball.init r).1.center.x = BALL_RADIUS ∧
    BALL_RADIUS ≤ (Ball.init r).1.center.y ∧
    (Ball.init r).1.center.y ≤ SCREEN_HEIGHT - BALL_RADIUS ∧
    MOVE_AMOUNT ≤ (Ball.init r).1.velocity.dx ∧
    (Ball.init r).1.velocity.dx ≤ 2 * MOVE_AMOUNT ∧
    0 < (Ball.init r).1.velocity.dx ∧
    MOVE_AMOUNT - 2 ≤ (Ball.init r).1.velocity.dy ∧
    (Ball.init r).1.velocity.dy ≤ MOVE_AMOUNT - 1 := by
  simp only [Ball.init, randint, BALL_RADIUS, SCREEN_HEIGHT, MOVE_AMOUNT, true_and]
  omega

/-- C8: the per-frame update ignores the elapsed-time argument: any two
elapsed-time values give identical results from the same state and
random source. -/
theorem update_time_independent (t1 t2 : ℤ) (g : Pong) (r : RNG) :
    Pong.update t1 g r = Pong.update t2 g r := rfl

theorem applyMoves_preserves_bounds (ms : List PMove) (p : Paddle)
    (h : PADDLE_HEIGHT / 2 - MOVE_AMOUNT < p.center.y ∧
      p.center.y < SCREEN_HEIGHT - PADDLE_HEIGHT / 2 + MOVE_AMOUNT) :
    PADDLE_HEIGHT / 2 - MOVE_AMOUNT < (applyMoves ms p).center.y ∧
    (applyMoves ms p).center.y < SCREEN_HEIGHT - PADDLE_HEIGHT / 2 + MOVE_AMOUNT := by
  induction ms generalizing p with
  | nil => simpa [applyMoves] using h
  | cons m tl ih =>
    have hstep :
        PADDLE_HEIGHT / 2 - MOVE_AMOUNT <
          (match m with | PMove.up => p.move_up | PMove.down => p.move_down).center.y ∧
        (match m with | PMove.up => p.move_up | PMove.down => p.move_down).center.y <
          SCREEN_HEIGHT - PADDLE_HEIGHT / 2 + MOVE_AMOUNT := by
      cases m <;>
        simp only [Paddle.move_up, Paddle.move_down, SCREEN_HEIGHT, PADDLE_HEIGHT,
          MOVE_AMOUNT] at h ⊢ <;>
        split_ifs <;> simp <;> omega
    simpa [applyMoves, List.foldl] using ih _ hstep

/-- C9: starting from the initial paddle (center.y = SCREEN_HEIGHT / 2)
and applying any sequence of move_up / move_down calls, the paddle's
center.y always stays strictly between `PADDLE_HEIGHT/2 - MOVE_AMOUNT`
(21) and `SCREEN_HEIGHT - PADDLE_HEIGHT/2 + MOVE_AMOUNT` (279): it can
overshoot the nominal clamp bounds only by strictly less than one move
unit. -/
theorem paddle_y_invariant (ms : List PMove) :
    PADDLE_HEIGHT / 2 - MOVE_AMOUNT < (applyMoves ms Paddle.init).center.y ∧
    (applyMoves ms Paddle.init).center.y < SCREEN_HEIGHT - PADDLE_HEIGHT / 2 + MOVE_AMOUNT :=
  applyMoves_preserves_bounds ms Paddle.init
    (by norm_num [Paddle.init, SCREEN_HEIGHT, PADDLE_HEIGHT, MOVE_AMOUNT])

theorem move_up_keeps_x (p : Paddle) : (p.move_up).center.x = p.center.x := by
  simp only [Paddle.move_up]
  split_ifs <;> rfl

theorem move_down_keeps_x (p : Paddle) : (p.move_down).center.x = p.center.x := by
  simp only [Paddle.move_down]
  split_ifs <;> rfl

theorem check_keys_fields (g : Pong) :
    (g.check_keys).ball = g.ball ∧ (g.check_keys).score = g.score ∧
    (g.check_keys).paddle.center.x = g.paddle.center.x := by
  simp only [Pong.check_keys]
  split_ifs <;> simp [move_up_keeps_x, move_down_keeps_x]

theorem check_miss_cases (g : Pong) (r : RNG) :
    (SCREEN_WIDTH < g.ball.center.x ∧
      (g.check_miss r).1.score = g.score - SCORE_MISS ∧
      (g.check_miss r).1.ball.center.x = 0 ∧
      0 < (g.check_miss r).1.ball.velocity.dx ∧
      (g.check_miss r).1.paddle = g.paddle) ∨
    (g.ball.center.x ≤ SCREEN_WIDTH ∧ (g.check_miss r).1 = g) := by
  simp only [Pong.check_miss, Ball.restart, randint]
  split_ifs with hgt
  · left
    refine ⟨hgt, rfl, rfl, ?_, rfl⟩
    simp only [MOVE_AMOUNT]
    omega
  · right
    exact ⟨not_lt.1 hgt, rfl⟩

theorem check_hit_score_cases (g : Pong) :
    (g.check_hit).score = g.score ∨ (g.check_hit).score = g.score + SCORE_HIT := by
  simp only [Pong.check_hit]
  split_ifs
  · right; rfl
  · left; rfl

theorem check_hit_of_far (g : Pong)
    (h : ¬ |g.ball.center.x - g.paddle.center.x| < PADDLE_WIDTH / 2 + BALL_RADIUS) :
    g.check_hit = g := by
  simp only [Pong.check_hit]
  rw [if_neg]
  intro hc
  exact h hc.1

theorem check_hit_keeps_center (g : Pong) :
    (g.check_hit).ball.center = g.ball.center := by
  simp only [Pong.check_hit]
  split_ifs <;> rfl

theorem check_bounce_score (g : Pong) : (g.check_bounce).score = g.score := by
  simp only [Pong.check_bounce]
  split_ifs <;> rfl

theorem check_bounce_keeps_center (g : Pong) :
    (g.check_bounce).ball.center = g.ball.center := by
  simp only [Pong.check_bounce]
  split_ifs <;> rfl

/-- C10: with the paddle at its fixed x-coordinate
`SCREEN_WIDTH - PADDLE_WIDTH` (390), a miss and a hit never both occur
in one frame — after a miss restarts the ball at x = 0 the hit
condition cannot hold — so an update changes the score by exactly one
of `-SCORE_MISS`, 0, or `+SCORE_HIT`. -/
theorem frame_score_step (t : ℤ) (g : Pong) (r : RNG)
    (hpx : g.paddle.center.x = SCREEN_WIDTH - PADDLE_WIDTH) :
    (Pong.update t g r).1.score = g.score - SCORE_MISS ∨
    (Pong.update t g r).1.score = g.score ∨
    (Pong.update t g r).1.score = g.score + SCORE_HIT := by
  have hres : (Pong.update t g r).1 =
      (((({ g with ball := g.ball.advance } : Pong).check_keys).check_miss
        r).1.check_hit).check_bounce := rfl
  have hk := check_keys_fields ({ g with ball := g.ball.advance } : Pong)
  have hksc : (({ g with ball := g.ball.advance } : Pong).check_keys).score = g.score :=
    hk.2.1
  have hkpx :
      (({ g with ball := g.ball.advance } : Pong).check_keys).paddle.center.x =
        g.paddle.center.x := hk.2.2
  rcases check_miss_cases (({ g with ball := g.ball.advance } : Pong).check_keys) r with
    ⟨_, hsc, hx0, _, hpad⟩ | ⟨_, heq⟩
  · have hfar :
        ¬ |((({ g with ball := g.ball.advance } : Pong).check_keys).check_miss
            r).1.ball.center.x -
          ((({ g with ball := g.ball.advance } : Pong).check_keys).check_miss
            r).1.paddle.center.x| < PADDLE_WIDTH / 2 + BALL_RADIUS := by
      rw [hx0, hpad, hkpx, hpx]
      norm_num [SCREEN_WIDTH, PADDLE_WIDTH, BALL_RADIUS]
    rw [hres, check_hit_of_far _ hfar, check_bounce_score]
    left
    rw [hsc, hksc]
  · rw [hres, check_bounce_score]
    rcases check_hit_score_cases
        ((({ g with ball := g.ball.advance } : Pong).check_keys).check_miss r).1 with
      h | h <;> rw [h, heq, hksc]
    · right; left; rfl
    · right; right; rfl

/-- C10 witness: at the concrete miss state `gMiss` (ball at x = 401
moving right, paddle at its fixed position) the frame's score change is
one of the three allowed steps. -/
theorem frame_score_step_witness :
    (Pong.update 0 gMiss rngZero).1.score = gMiss.score - SCORE_MISS ∨
    (Pong.update 0 gMiss rngZero).1.score = gMiss.score ∨
    (Pong.update 0 gMiss rngZero).1.score = gMiss.score + SCORE_HIT :=
  frame_score_step 0 gMiss rngZero (by decide)

/-- C2 counterexample: at the concrete state `gMissBack` — ball at
x = 401 (SCREEN_WIDTH + 1) but moving leftward (`dx = -4`) — one update
leaves the score unchanged (no `SCORE_MISS` decrement) and the ball's x
becomes 397, not the restart value 0: the advance step pulls the ball
back inside before the miss check runs. -/
theorem miss_needs_rightward_motion_cex :
    gMissBack.ball.center.x = SCREEN_WIDTH + 1 ∧
    (Pong.update 0 gMissBack rngZero).1.score ≠ gMissBack.score - SCORE_MISS ∧
    (Pong.update 0 gMissBack rngZero).1.score = gMissBack.score ∧
    (Pong.update 0 gMissBack rngZero).1.ball.center.x ≠ 0 ∧
    (Pong.update 0 gMissBack rngZero).1.ball.center.x = 397 := by decide

/-- C2 (amended): for every state with `ball.center.x = SCREEN_WIDTH + 1`
(401), nonnegative horizontal velocity, and the paddle at its fixed
x-coordinate 390, one update decreases the score by exactly `SCORE_MISS`
and resets the ball's x to 0, regardless of `velocity.dy`, the paddle's
y, the input flags and the random-source values. -/
theorem miss_at_right_edge (t : ℤ) (g : Pong) (r : RNG)
    (hx : g.ball.center.x = SCREEN_WIDTH + 1)
    (hdx : 0 ≤ g.ball.velocity.dx)
    (hpx : g.paddle.center.x = SCREEN_WIDTH - PADDLE_WIDTH) :
    (Pong.update t g r).1.score = g.score - SCORE_MISS ∧
    (Pong.update t g r).1.ball.center.x = 0 := by
  have hres : (Pong.update t g r).1 =
      (((({ g with ball := g.ball.advance } : Pong).check_keys).check_miss
        r).1.check_hit).check_bounce := rfl
  have hk := check_keys_fields ({ g with ball := g.ball.advance } : Pong)
  have hkb : (({ g with ball := g.ball.advance } : Pong).check_keys).ball =
      g.ball.advance := hk.1
  have hgt : SCREEN_WIDTH <
      (({ g with ball := g.ball.advance } : Pong).check_keys).ball.center.x := by
    rw [hkb]
    show SCREEN_WIDTH < g.ball.center.x + g.ball.velocity.dx
    rw [hx]
    omega
  rcases check_miss_cases (({ g with ball := g.ball.advance } : Pong).check_keys) r with
    ⟨_, hsc, hx0, _, hpad⟩ | ⟨hle, _⟩
  · have hfar :
        ¬ |((({ g with ball := g.ball.advance } : Pong).check_keys).check_miss
            r).1.ball.center.x -
          ((({ g with ball := g.ball.advance } : Pong).check_keys).check_miss
            r).1.paddle.center.x| < PADDLE_WIDTH / 2 + BALL_RADIUS := by
      rw [hx0, hpad, hk.2.2, hpx]
      norm_num [SCREEN_WIDTH, PADDLE_WIDTH, BALL_RADIUS]
    constructor
    · rw [hres, check_hit_of_far _ hfar, check_bounce_score, hsc, hk.2.1]
    · have hcb : ((((({ g with ball := g.ball.advance } : Pong).check_keys).check_miss
          r).1.check_hit).check_bounce).ball.center =
          ((({ g with ball := g.ball.advance } : Pong).check_keys).check_miss
            r).1.ball.center := by
        rw [check_bounce_keeps_center, check_hit_keeps_center]
      rw [hres]
      rw [show ((((({ g with ball := g.ball.advance } : Pong).check_keys).check_miss
          r).1.check_hit).check_bounce).ball.center.x =
          ((({ g with ball := g.ball.advance } : Pong).check_keys).check_miss
            r).1.ball.center.x from congrArg Point.x hcb]
      exact hx0
  · exact absurd hgt (not_lt.2 hle)

/-- C2 witness: at the concrete state `gMiss` (ball at x = 401 with
velocity (4, 2), paddle at its fixed position, score 0) one update
yields score -5 and ball x = 0. -/
theorem miss_at_right_edge_witness :
    (Pong.update 0 gMiss rngZero).1.score = gMiss.score - SCORE_MISS ∧
    (Pong.update 0 gMiss rngZero).1.ball.center.x = 0 :=
  miss_at_right_edge 0 gMiss rngZero (by decide) (by decide) (by decide)

/-- C5 counterexample: constructing the game with an 8×8 arena
(smaller than twice the ball radius in both dimensions) is not rejected:
it succeeds, produces exactly the same state as construction with the
normal 400×300 arguments, and the ball's center is the in-range point
(10, 10) — there is no `InvalidConfiguration` error path in the code. -/
theorem init_accepts_degenerate_cex :
    (Pong.init 8 8 rngZero).1 = (Pong.init SCREEN_WIDTH SCREEN_HEIGHT rngZero).1 ∧
    (Pong.init 8 8 rngZero).1.ball.center.x = BALL_RADIUS ∧
    (Pong.init 8 8 rngZero).1.ball.center.y = BALL_RADIUS ∧
    (Pong.init 8 8 rngZero).1.score = 0 := by decide

/-- C5 (amended): construction performs no validation at all: the
width/height arguments are only handed to the external windowing base
class, so `Pong.init` accepts any dimensions, never raises, produces a
state independent of those arguments, and the ball and paddle centers
always lie inside the fixed-constant 400×300 arena. -/
theorem init_no_validation (w h w2 h2 : ℤ) (r : RNG) :
    (Pong.init w h r).1 = (Pong.init w2 h2 r).1 ∧
    (Pong.init w h r).1.ball.center.x = BALL_RADIUS ∧
    BALL_RADIUS ≤ (Pong.init w h r).1.ball.center.y ∧
    (Pong.init w h r).1.ball.center.y ≤ SCREEN_HEIGHT - BALL_RADIUS ∧
    (Pong.init w h r).1.paddle = Paddle.init ∧
    (Pong.init w h r).1.score = 0 := by
  refine ⟨rfl, rfl, ?_, ?_, rfl, rfl⟩ <;>
    · simp only [Pong.init, Ball.init, randint, BALL_RADIUS, SCREEN_HEIGHT]
      omega

theorem move_up_fixed_iff (p : Paddle) :
    p.move_up = p ↔ SCREEN_HEIGHT - PADDLE_HEIGHT / 2 ≤ p.center.y := by
  simp only [Paddle.move_up]
  split_ifs with h
  · constructor
    · intro he
      have hy := congrArg (fun q => q.center.y) he
      simp only [MOVE_AMOUNT] at hy
      omega
    · intro hy
      exact absurd h (not_lt.2 hy)
  · exact ⟨fun _ => not_lt.1 h, fun _ => rfl⟩

theorem move_up_y_of_lt (p : Paddle)
    (h : p.center.y < SCREEN_HEIGHT - PADDLE_HEIGHT / 2) :
    (p.move_up).center.y = p.center.y + MOVE_AMOUNT := by
  simp only [Paddle.move_up]
  rw [if_pos h]

theorem move_up_upper_preserved (p : Paddle)
    (h : p.center.y < SCREEN_HEIGHT - PADDLE_HEIGHT / 2 + MOVE_AMOUNT) :
    (p.move_up).center.y < SCREEN_HEIGHT - PADDLE_HEIGHT / 2 + MOVE_AMOUNT := by
  simp only [Paddle.move_up]
  split_ifs with hy
  · show p.center.y + MOVE_AMOUNT < SCREEN_HEIGHT - PADDLE_HEIGHT / 2 + MOVE_AMOUNT
    omega
  · exact h

theorem move_up_iter_upper (m : ℕ) (p : Paddle)
    (h : p.center.y < SCREEN_HEIGHT - PADDLE_HEIGHT / 2 + MOVE_AMOUNT) :
    (Paddle.move_up^[m] p).center.y < SCREEN_HEIGHT - PADDLE_HEIGHT / 2 + MOVE_AMOUNT := by
  induction m generalizing p with
  | zero => simpa using h
  | succ n ih =>
    rw [Function.iterate_succ_apply]
    exact ih _ (move_up_upper_preserved p h)

theorem move_up_iter_reach (k : ℕ) (p : Paddle)
    (h : SCREEN_HEIGHT - PADDLE_HEIGHT / 2 - p.center.y ≤ MOVE_AMOUNT * k) :
    SCREEN_HEIGHT - PADDLE_HEIGHT / 2 ≤ (Paddle.move_up^[k] p).center.y := by
  induction k generalizing p with
  | zero =>
    simp only [Function.iterate_zero, id_eq]
    simp only [MOVE_AMOUNT] at h
    omega
  | succ n ih =>
    by_cases hy : p.center.y < SCREEN_HEIGHT - PADDLE_HEIGHT / 2
    · rw [Function.iterate_succ_apply]
      apply ih
      rw [move_up_y_of_lt p hy]
      simp only [MOVE_AMOUNT] at h ⊢
      push_cast at h ⊢
      omega
    · rw [Function.iterate_succ_apply, (move_up_fixed_iff p).2 (not_lt.1 hy)]
      apply ih
      have hge := not_lt.1 hy
      simp only [MOVE_AMOUNT]
      omega

set_option maxRecDepth 4000 in
/-- C4 counterexample: from the initial paddle (center.y = 150),
iterated `move_up` stabilizes at y = 278, which differs from and
strictly exceeds the claimed bound
`SCREEN_HEIGHT - PADDLE_HEIGHT / 2 = 275`. -/
theorem move_up_overshoots_cex :
    (Paddle.move_up^[32] Paddle.init).center.y = 278 ∧
    Paddle.move_up (Paddle.move_up^[32] Paddle.init) = Paddle.move_up^[32] Paddle.init ∧
    (Paddle.move_up^[32] Paddle.init).center.y ≠ SCREEN_HEIGHT - PADDLE_HEIGHT / 2 ∧
    SCREEN_HEIGHT - PADDLE_HEIGHT / 2 < (Paddle.move_up^[32] Paddle.init).center.y := by
  decide

/-- C4 (amended): for every starting paddle, iterated `move_up` reaches
a fixed point after which further calls are no-ops; if the start is
below the nominal bound `SCREEN_HEIGHT - PADDLE_HEIGHT / 2` (275), the
stabilized y is at least that bound but below it plus one `MOVE_AMOUNT`
(so in [275, 278]), and y stays below 275 + 4 = 279 at every point of
the sequence; if the start is at or above the bound, `move_up` is a
no-op from the very first call. -/
theorem move_up_stabilizes (p : Paddle) :
    ∃ n : ℕ,
      Paddle.move_up (Paddle.move_up^[n] p) = Paddle.move_up^[n] p ∧
      (∀ k : ℕ, Paddle.move_up^[n + k] p = Paddle.move_up^[n] p) ∧
      (p.center.y < SCREEN_HEIGHT - PADDLE_HEIGHT / 2 →
        SCREEN_HEIGHT - PADDLE_HEIGHT / 2 ≤ (Paddle.move_up^[n] p).center.y ∧
        (Paddle.move_up^[n] p).center.y < SCREEN_HEIGHT - PADDLE_HEIGHT / 2 + MOVE_AMOUNT ∧
        ∀ m : ℕ,
          (Paddle.move_up^[m] p).center.y < SCREEN_HEIGHT - PADDLE_HEIGHT / 2 + MOVE_AMOUNT) ∧
      (SCREEN_HEIGHT - PADDLE_HEIGHT / 2 ≤ p.center.y → Paddle.move_up^[n] p = p) := by
  have hreach : SCREEN_HEIGHT - PADDLE_HEIGHT / 2 ≤
      (Paddle.move_up^[(SCREEN_HEIGHT - PADDLE_HEIGHT / 2 - p.center.y).toNat] p).center.y := by
    apply move_up_iter_reach
    simp only [MOVE_AMOUNT]
    omega
  have hfix := (move_up_fixed_iff _).2 hreach
  refine ⟨(SCREEN_HEIGHT - PADDLE_HEIGHT / 2 - p.center.y).toNat, hfix, fun k => ?_,
    fun hy => ⟨hreach, ?_, fun m => ?_⟩,
    fun hy => Function.iterate_fixed ((move_up_fixed_iff p).2 hy) _⟩
  · rw [Nat.add_comm, Function.iterate_add_apply]
    exact Function.iterate_fixed hfix k
  · apply move_up_iter_upper
    simp only [MOVE_AMOUNT]
    omega
  · apply move_up_iter_upper
    simp only [MOVE_AMOUNT]
    omega

/-- C4 witness: the amended statement instantiated at the initial
paddle. -/
theorem move_up_stabilizes_witness :
    ∃ n : ℕ,
      Paddle.move_up (Paddle.move_up^[n] Paddle.init) = Paddle.move_up^[n] Paddle.init ∧
      (∀ k : ℕ, Paddle.move_up^[n + k] Paddle.init = Paddle.move_up^[n] Paddle.init) ∧
      (Paddle.init.center.y < SCREEN_HEIGHT - PADDLE_HEIGHT / 2 →
        SCREEN_HEIGHT - PADDLE_HEIGHT / 2 ≤ (Paddle.move_up^[n] Paddle.init).center.y ∧
        (Paddle.move_up^[n] Paddle.init).center.y <
          SCREEN_HEIGHT - PADDLE_HEIGHT / 2 + MOVE_AMOUNT ∧
        ∀ m : ℕ,
          (Paddle.move_up^[m] Paddle.init).center.y <
            SCREEN_HEIGHT - PADDLE_HEIGHT / 2 + MOVE_AMOUNT) ∧
      (SCREEN_HEIGHT - PADDLE_HEIGHT / 2 ≤ Paddle.init.center.y →
        Paddle.move_up^[n] Paddle.init = Paddle.init) :=
  move_up_stabilizes Paddle.init

end PongGame
